import Mathlib

/- Shallow embedding of src/src/components/WatermarkRemover.tsx: the
   client-side orchestration workflow of the AI watermark remover (file
   validation, preview handles, upload, AI call, result handling, download),
   modelled as pure state-passing functions that also return an explicit
   trace of observable events (progress updates, toasts, collaborator calls). -/

/-- A user-selected browser File: original name, MIME type and byte size. -/
structure FileModel where
  name : String
  type : String
  size : Nat
  deriving DecidableEq

/-- A toast notification: title, description, and whether the variant is
destructive (a failure notification). -/
structure Toast where
  title : String
  description : String
  destructive : Bool
  deriving DecidableEq

/-- The ProcessedImage record stored on a successful run. -/
structure ProcessedImage where
  original : String
  processed : String
  filename : String
  deriving DecidableEq

/-- The authenticated session user (id and email). -/
structure Session where
  id : String
  email : String
  deriving DecidableEq

/-- One entry of the AI response data list; the url field may be absent. -/
structure AiEntry where
  url : Option String
  deriving DecidableEq

/-- The blink.ai.modifyImage response body; the data field may be absent. -/
structure AiData where
  data : Option (List AiEntry)
  deriving DecidableEq

/-- The component's React state: selectedImage, previewUrl (empty string when
none), isProcessing, progress and processedImage, with their useState
defaults captured by initialState. -/
structure ComponentState where
  selectedImage : Option FileModel
  previewUrl : String
  isProcessing : Bool
  progress : Nat
  processedImage : Option ProcessedImage
  deriving DecidableEq

/-- Initial component state (the useState defaults). -/
def initialState : ComponentState :=
  ⟨none, "", false, 0, none⟩

/-- The browser's object-URL environment: the next fresh handle id and the
ids that have been created but not revoked (outstanding handles). -/
structure UrlEnv where
  nextId : Nat
  live : List Nat
  deriving DecidableEq

/-- URL.createObjectURL: allocates a fresh handle id and marks it live. -/
def createObjectURL (env : UrlEnv) : Nat × UrlEnv :=
  (env.nextId, ⟨env.nextId + 1, env.nextId :: env.live⟩)

/-- URL.revokeObjectURL: removes a handle id from the live set. -/
def revokeObjectURL (id : Nat) (env : UrlEnv) : UrlEnv :=
  ⟨env.nextId, env.live.filter fun i => i != id⟩

/-- The blob URL string rendered for a handle id. -/
def objectUrlString (id : Nat) : String :=
  "blob:" ++ toString id

/-- Models JavaScript s.startsWith(pre). -/
def stringStartsWith (s pre : String) : Bool :=
  List.isPrefixOf pre.data s.data

/-- Models JavaScript s.split(sep) on the character list of s: splitting an
empty string yields one empty segment, and separators at the ends yield
empty segments, exactly as String.prototype.split with a one-char separator. -/
def splitCharsOn (sep : Char) : List Char → List String
  | [] => [""]
  | c :: cs =>
    let r := splitCharsOn sep cs
    if c = sep then "" :: r
    else
      match r with
      | [] => [String.mk [c]]
      | h :: t => String.mk (c :: h.data) :: t

/-- Models JavaScript name.split(dot).pop(): the final dot-separated segment
of the name (the whole name when it has no dot). -/
def jsSplitPop (name : String) : String :=
  (splitCharsOn '.' name.data).getLastD ""

/-- The storage key built by processImage for the upload. -/
def uploadKey (now : Nat) (name : String) : String :=
  "watermark-removal/original-" ++ toString now ++ "." ++ jsSplitPop name

/-- The single anchored match of the extension regex (a dot followed by one
or more characters that are neither dot nor slash, at the end of the
string), computed on the REVERSED character list: returns the reversed
characters standing before the match when the pattern matches. -/
def extSuffixSplit (rev : List Char) : Option (List Char) :=
  match rev.drop ((rev.takeWhile fun d => d != '.' && d != '/').length) with
  | [] => none
  | c :: before =>
    if c = '.' ∧ (rev.takeWhile fun d => d != '.' && d != '/') ≠ [] then some before
    else none

/-- Models JavaScript name.replace(extension-regex, repl): replaces the
final dot-plus-extension suffix when present, otherwise returns the name
unchanged (the regex is anchored at the end and non-global). -/
def jsReplaceExt (name : String) (repl : String) : String :=
  match extSuffixSplit name.data.reverse with
  | some before => String.mk before.reverse ++ repl
  | none => name

/-- The download filename derived by processImage from the original name. -/
def deriveFilename (name : String) : String :=
  jsReplaceExt name "_watermark_removed.png"

/-- The truthiness check result, result.data and result.data[0]?.url of the
AI response (a missing response, a missing data field, an empty list, a
missing url and an empty url string are all falsy); returns the url when
the shape is valid. -/
def aiResponseUrl (r : Option AiData) : Option String :=
  match r with
  | none => none
  | some rd =>
    match rd.data with
    | none => none
    | some [] => none
    | some (e :: _) =>
      match e.url with
      | none => none
      | some u => if u = "" then none else some u

/-- Containment of sub as a contiguous run of l (helper for includes). -/
def infixCheck (sub : List Char) : List Char → Bool
  | [] => sub.isEmpty
  | c :: cs => List.isPrefixOf sub (c :: cs) || infixCheck sub cs

/-- Models JavaScript s.includes(sub). -/
def includes (s sub : String) : Bool :=
  infixCheck sub.data s.data

/-- The substring-based refinement of the caught error message in
processImage's catch block. -/
def refineErrorMessage (msg : String) : String :=
  if includes msg "401" || includes msg "unauthorized" then
    "Authentication failed. Please sign out and sign in again."
  else if includes msg "403" || includes msg "forbidden" then
    "Access denied. Please check your account permissions."
  else if includes msg "429" || includes msg "rate limit" then
    "Rate limit exceeded. Please wait a moment and try again."
  else if includes msg "network" || includes msg "fetch" then
    "Network error. Please check your connection and try again."
  else msg

def invalidTypeToast : Toast :=
  ⟨"Invalid file type", "Please select an image file (JPG, PNG, WebP)", true⟩

def fileTooLargeToast : Toast :=
  ⟨"File too large", "Please select an image smaller than 10MB", true⟩

def authRequiredToast : Toast :=
  ⟨"Authentication required", "Please sign in to use the watermark removal feature", true⟩

def uploadingToast : Toast :=
  ⟨"Uploading image...", "Preparing your image for AI processing", false⟩

def aiProcessingToast : Toast :=
  ⟨"AI Processing...", "Our AI is analyzing and removing the watermark", false⟩

def successToast : Toast :=
  ⟨"Success!", "Watermark removed successfully", false⟩

/-- The failure toast emitted from processImage's catch block for a thrown
error carrying the given message. -/
def processingFailedToast (msg : String) : Toast :=
  ⟨"Processing failed", "Error: " ++ refineErrorMessage msg ++ ". Please try again.", true⟩

def downloadFailedToast : Toast :=
  ⟨"Download failed", "Failed to download the processed image", true⟩

def downloadedToast : Toast :=
  ⟨"Downloaded!", "Your watermark-free image has been downloaded", false⟩

/-- The message of the error thrown on an invalid AI response shape. -/
def invalidResponseMsg : String :=
  "AI processing returned invalid response"

/-- Observable events emitted by the workflow functions, in program order:
state setters, toasts, and calls to the storage / AI / download
collaborators. -/
inductive Event where
  | setProcessing (b : Bool)
  | setProgress (n : Nat)
  | toast (t : Toast)
  | upload (key : String)
  | aiCall (url : String)
  | download (filename : String)
  deriving DecidableEq

/-- handleFileSelect: rejects a non-image MIME type, then an oversize file
(more than 10 * 1024 * 1024 bytes), each with one destructive toast and no
state change; otherwise stages the file, creates a fresh preview object URL
(without revoking any prior one) and clears any prior processed result. -/
def handleFileSelect (file : FileModel) (s : ComponentState) (env : UrlEnv) :
    ComponentState × UrlEnv × List Toast :=
  if stringStartsWith file.type "image/" = false then
    (s, env, [invalidTypeToast])
  else if 10 * 1024 * 1024 < file.size then
    (s, env, [fileTooLargeToast])
  else
    let r := createObjectURL env
    ({ s with selectedImage := some file,
              previewUrl := objectUrlString r.1,
              processedImage := none },
     r.2, [])

/-- The body of processImage once a selected file and a session are present:
the try/catch/finally over upload, AI call, response-shape check and result
storage. Collaborator outcomes are passed in: storage resolves to a public
URL or rejects with an error message; ai resolves to a response value or
rejects with an error message. -/
def processImageStaged (s : ComponentState) (file : FileModel) (now : Nat)
    (storage : Except String String) (ai : Except String (Option AiData)) :
    ComponentState × List Event :=
  let ev0 : List Event :=
    [Event.setProcessing true, Event.setProgress 0, Event.toast uploadingToast,
     Event.setProgress 20, Event.upload (uploadKey now file.name)]
  match storage with
  | Except.error msg =>
    ({ s with isProcessing := false, progress := 20 },
     ev0 ++ [Event.toast (processingFailedToast msg), Event.setProcessing false])
  | Except.ok publicUrl =>
    let ev1 := ev0 ++ [Event.setProgress 40, Event.toast aiProcessingToast,
                       Event.setProgress 60, Event.aiCall publicUrl]
    match ai with
    | Except.error msg =>
      ({ s with isProcessing := false, progress := 60 },
       ev1 ++ [Event.toast (processingFailedToast msg), Event.setProcessing false])
    | Except.ok resp =>
      match aiResponseUrl resp with
      | none =>
        ({ s with isProcessing := false, progress := 90 },
         ev1 ++ [Event.setProgress 90,
                 Event.toast (processingFailedToast invalidResponseMsg),
                 Event.setProcessing false])
      | some resUrl =>
        ({ s with processedImage :=
                    some ⟨publicUrl, resUrl, deriveFilename file.name⟩,
                  isProcessing := false, progress := 100 },
         ev1 ++ [Event.setProgress 90, Event.setProgress 100,
                 Event.toast successToast, Event.setProcessing false])

/-- processImage: returns silently when no file is selected; emits exactly
one authentication toast and changes nothing when the session user is
absent; otherwise runs the staged processing body. -/
def processImage (s : ComponentState) (user : Option Session) (now : Nat)
    (storage : Except String String) (ai : Except String (Option AiData)) :
    ComponentState × List Event :=
  match s.selectedImage with
  | none => (s, [])
  | some file =>
    match user with
    | none => (s, [Event.toast authRequiredToast])
    | some _ => processImageStaged s file now storage ai

/-- downloadProcessedImage: returns silently when no processed result is
stored; on a failed fetch emits one failure toast and leaves state and the
URL environment unchanged; on success creates a temporary object URL,
triggers the browser download, revokes the temporary URL and emits a
success toast. -/
def downloadProcessedImage (s : ComponentState) (env : UrlEnv)
    (fetchResult : Except String Unit) : ComponentState × UrlEnv × List Event :=
  match s.processedImage with
  | none => (s, env, [])
  | some pi =>
    match fetchResult with
    | Except.error _ => (s, env, [Event.toast downloadFailedToast])
    | Except.ok _ =>
      let r := createObjectURL env
      (s, revokeObjectURL r.1 r.2,
       [Event.download pi.filename, Event.toast downloadedToast])

/-- resetProcess: clears the selected file, the preview URL string, the
processed result and the progress; it does not revoke any object URL. -/
def resetProcess (s : ComponentState) (env : UrlEnv) : ComponentState × UrlEnv :=
  ({ s with selectedImage := none, previewUrl := "",
            processedImage := none, progress := 0 }, env)

/-- The workflow phase abstraction {Idle, Uploading, Transforming, Complete,
Failed} of the specification. -/
inductive ProcState where
  | idle
  | uploading
  | transforming
  | complete
  | failed
  deriving DecidableEq

/-- The phase checkpoint marked by an event, read off the stage toasts. -/
def phaseOf : Event → Option ProcState
  | Event.toast t =>
    if t.title = "Uploading image..." then some ProcState.uploading
    else if t.title = "AI Processing..." then some ProcState.transforming
    else if t.title = "Success!" then some ProcState.complete
    else if t.title = "Processing failed" then some ProcState.failed
    else none
  | _ => none

/-- The sequence of phase checkpoints traversed by an event trace. -/
def phaseTrace (evs : List Event) : List ProcState :=
  evs.filterMap phaseOf

/-- The sequence of progress values set by an event trace. -/
def progressTrace (evs : List Event) : List Nat :=
  evs.filterMap fun e =>
    match e with
    | Event.setProgress n => some n
    | _ => none

/-- The storage keys of the uploads performed in an event trace. -/
def uploadTrace (evs : List Event) : List String :=
  evs.filterMap fun e =>
    match e with
    | Event.upload k => some k
    | _ => none

/-- The AI-call URLs of an event trace. -/
def aiCallTrace (evs : List Event) : List String :=
  evs.filterMap fun e =>
    match e with
    | Event.aiCall u => some u
    | _ => none

/-- The destructive (failure) toasts of an event trace. -/
def failureToasts (evs : List Event) : List Toast :=
  evs.filterMap fun e =>
    match e with
    | Event.toast t => if t.destructive then some t else none
    | _ => none

/-- Concrete fixture: a state with a valid selected image staged. -/
def stagedState : ComponentState :=
  ⟨some ⟨"cat.png", "image/png", 100⟩, "blob:0", false, 0, none⟩

/-- Concrete fixture: an authenticated session. -/
def sessionU : Session :=
  ⟨"user-1", "user@example.com"⟩

/-- Concrete fixture: a valid AI response holding one entry with a url. -/
def aiRespOk : Option AiData :=
  some ⟨some [⟨some "https://cdn/x/out.png"⟩]⟩

/-- Concrete fixture: a state holding a stored processed result. -/
def completeState : ComponentState :=
  ⟨some ⟨"cat.png", "image/png", 100⟩, "blob:0", false, 100,
   some ⟨"https://cdn/x/original-0.png", "https://cdn/x/out.png",
         "cat_watermark_removed.png"⟩⟩

/-- Helper: rebuilding a string from its character list is the identity. -/
theorem stringMkData (s : String) : String.mk s.data = s := rfl

/-- Helper: takeWhile over a list whose first block satisfies the predicate
and is followed by an element refuting it returns exactly that block. -/
theorem takeWhile_all_append {p : Char → Bool} {l1 : List Char} {x : Char}
    (l2 : List Char) (h1 : ∀ c ∈ l1, p c = true) (hx : p x = false) :
    (l1 ++ x :: l2).takeWhile p = l1 := by
  induction l1 with
  | nil => simp [List.takeWhile_cons, hx]
  | cons a t ih =>
    have ha : p a = true := h1 a (List.mem_cons_self a t)
    simp only [List.cons_append, List.takeWhile_cons, ha, if_true]
    exact congrArg (a :: ·) (ih fun c hc => h1 c (List.mem_cons_of_mem a hc))

/-- Claim C1: for a candidate file whose MIME type does not start with
"image/", handleFileSelect rejects the file with exactly one rejection
toast and leaves everything unchanged: the component state (selected file,
prior processed result) is untouched and the object-URL environment is
untouched, so no preview handle is created or replaced. -/
theorem C1_reject_non_image (file : FileModel) (s : ComponentState)
    (env : UrlEnv) (h : stringStartsWith file.type "image/" = false) :
    handleFileSelect file s env = (s, env, [invalidTypeToast]) := by
  simp [handleFileSelect, h]

/-- Witness for C1 at a concrete PDF file. -/
theorem C1_reject_non_image_witness :
    stringStartsWith "application/pdf" "image/" = false ∧
    handleFileSelect ⟨"doc.pdf", "application/pdf", 1000⟩ initialState ⟨0, []⟩
      = (initialState, ⟨0, []⟩, [invalidTypeToast]) :=
  ⟨by decide,
   C1_reject_non_image ⟨"doc.pdf", "application/pdf", 1000⟩ initialState ⟨0, []⟩
     (by decide)⟩

/-- Claim C2: for a candidate file whose size exceeds 10 * 1024 * 1024
bytes, handleFileSelect rejects it whatever its MIME type: the component
state is unchanged (the file is never staged as the selected image) and the
object-URL environment is unchanged (no preview handle is created). -/
theorem C2_reject_oversize (file : FileModel) (s : ComponentState)
    (env : UrlEnv) (h : 10 * 1024 * 1024 < file.size) :
    (handleFileSelect file s env).1 = s ∧
    (handleFileSelect file s env).2.1 = env := by
  by_cases ht : stringStartsWith file.type "image/" = false <;>
    simp [handleFileSelect, ht, h]

/-- Witness for C2 at a concrete oversize PNG file. -/
theorem C2_reject_oversize_witness :
    10 * 1024 * 1024 < (10485761 : Nat) ∧
    (handleFileSelect ⟨"big.png", "image/png", 10485761⟩ initialState
        ⟨0, []⟩).1 = initialState ∧
    (handleFileSelect ⟨"big.png", "image/png", 10485761⟩ initialState
        ⟨0, []⟩).2.1 = ⟨0, []⟩ :=
  ⟨by decide,
   C2_reject_oversize ⟨"big.png", "image/png", 10485761⟩ initialState ⟨0, []⟩
     (by decide)⟩

/-- Claim C3: invoking processImage with a staged file but no session user
performs no upload and no AI call, leaves the whole component state
unchanged (isProcessing stays false, progress is not modified), and emits
exactly one authentication-required notification. -/
theorem C3_requires_session (s : ComponentState) (f : FileModel) (now : Nat)
    (storage : Except String String) (ai : Except String (Option AiData))
    (hf : s.selectedImage = some f) :
    processImage s none now storage ai = (s, [Event.toast authRequiredToast]) := by
  simp [processImage, hf]

/-- Witness for C3 at a concrete staged state, with collaborators that
would have succeeded had they been called. -/
theorem C3_requires_session_witness :
    stagedState.selectedImage = some ⟨"cat.png", "image/png", 100⟩ ∧
    processImage stagedState none 0 (Except.ok "https://cdn/x/original-0.png")
        (Except.ok aiRespOk)
      = (stagedState, [Event.toast authRequiredToast]) :=
  ⟨rfl,
   C3_requires_session stagedState ⟨"cat.png", "image/png", 100⟩ 0
     (Except.ok "https://cdn/x/original-0.png") (Except.ok aiRespOk) rfl⟩

/-- Counterexample to claim C4 as stated: after selecting a first valid
file (handle 0) and then a second valid file (handle 1), the new preview
handle 1 is installed, yet handle 0 is still outstanding (still in the live
set) — the previously created preview handle is never revoked, so it is
leaked across the file replacement. -/
theorem C4_counterexample :
    0 ∈ ((handleFileSelect ⟨"b.png", "image/png", 200⟩
        (handleFileSelect ⟨"a.png", "image/png", 100⟩ initialState ⟨0, []⟩).1
        (handleFileSelect ⟨"a.png", "image/png", 100⟩ initialState
          ⟨0, []⟩).2.1).2.1).live ∧
    (handleFileSelect ⟨"b.png", "image/png", 200⟩
        (handleFileSelect ⟨"a.png", "image/png", 100⟩ initialState ⟨0, []⟩).1
        (handleFileSelect ⟨"a.png", "image/png", 100⟩ initialState
          ⟨0, []⟩).2.1).1.previewUrl = objectUrlString 1 ∧
    (handleFileSelect ⟨"a.png", "image/png", 100⟩ initialState
        ⟨0, []⟩).1.previewUrl = objectUrlString 0 := by
  decide

/-- Claim C4 (amended): selecting a valid file installs exactly one fresh
preview handle and clears any prior processed result, and resetProcess
clears the preview reference — but neither operation revokes the
previously created handle: every previously live object URL stays live
(the prior preview handle is leaked, not released). -/
theorem C4_amended_leak (file : FileModel) (s : ComponentState) (env : UrlEnv)
    (ht : stringStartsWith file.type "image/" = true)
    (hs : file.size ≤ 10 * 1024 * 1024) :
    handleFileSelect file s env =
      ({ s with selectedImage := some file,
                previewUrl := objectUrlString env.nextId,
                processedImage := none },
       ⟨env.nextId + 1, env.nextId :: env.live⟩, []) ∧
    resetProcess s env =
      ({ s with selectedImage := none, previewUrl := "",
                processedImage := none, progress := 0 }, env) := by
  have h2 : ¬ (10 * 1024 * 1024 < file.size) := Nat.not_lt.mpr hs
  exact ⟨by simp [handleFileSelect, ht, h2, createObjectURL], rfl⟩

/-- Witness for the amended C4 at a concrete valid file and an environment
already holding a live handle 3, which stays live. -/
theorem C4_amended_leak_witness :
    stringStartsWith "image/png" "image/" = true ∧ (100 : Nat) ≤ 10 * 1024 * 1024 ∧
    (handleFileSelect ⟨"cat.png", "image/png", 100⟩ initialState ⟨5, [3]⟩ =
      ({ initialState with selectedImage := some ⟨"cat.png", "image/png", 100⟩,
                           previewUrl := objectUrlString 5,
                           processedImage := none },
       ⟨6, [5, 3]⟩, []) ∧
    resetProcess initialState ⟨5, [3]⟩ =
      ({ initialState with selectedImage := none, previewUrl := "",
                           processedImage := none, progress := 0 }, ⟨5, [3]⟩)) :=
  ⟨by decide, by decide,
   C4_amended_leak ⟨"cat.png", "image/png", 100⟩ initialState ⟨5, [3]⟩
     (by decide) (by decide)⟩

/-- Claim C5: on a successful run (session present, storage resolves, AI
response valid) starting from an idle state, the emitted progress values
are exactly 0, 20, 40, 60, 90, 100 — a non-decreasing sequence ending at
100 — and the phase checkpoints are traversed in the order Uploading,
Transforming, Complete, ending with isProcessing false and progress 100. -/
theorem C5_success_trace (s : ComponentState) (f : FileModel) (u : Session)
    (now : Nat) (publicUrl resUrl : String) (resp : Option AiData)
    (hf : s.selectedImage = some f) (hidle : s.isProcessing = false)
    (hai : aiResponseUrl resp = some resUrl) :
    s.isProcessing = false ∧
    progressTrace (processImage s (some u) now (Except.ok publicUrl)
        (Except.ok resp)).2 = [0, 20, 40, 60, 90, 100] ∧
    List.Chain' (fun a b => a ≤ b)
      (progressTrace (processImage s (some u) now (Except.ok publicUrl)
        (Except.ok resp)).2) ∧
    (progressTrace (processImage s (some u) now (Except.ok publicUrl)
        (Except.ok resp)).2).getLast? = some 100 ∧
    phaseTrace (processImage s (some u) now (Except.ok publicUrl)
        (Except.ok resp)).2
      = [ProcState.uploading, ProcState.transforming, ProcState.complete] ∧
    (processImage s (some u) now (Except.ok publicUrl)
        (Except.ok resp)).1.isProcessing = false ∧
    (processImage s (some u) now (Except.ok publicUrl)
        (Except.ok resp)).1.progress = 100 := by
  have h1 : progressTrace (processImage s (some u) now (Except.ok publicUrl)
      (Except.ok resp)).2 = [0, 20, 40, 60, 90, 100] := by
    simp [processImage, processImageStaged, hf, hai, progressTrace]
  refine ⟨hidle, h1, ?_, ?_, ?_, ?_, ?_⟩
  · rw [h1]
    simp [List.chain'_cons]
  · rw [h1]
    rfl
  · simp [processImage, processImageStaged, hf, hai, phaseTrace, phaseOf,
          uploadingToast, aiProcessingToast, successToast]
  · simp [processImage, processImageStaged, hf, hai]
  · simp [processImage, processImageStaged, hf, hai]

/-- Witness for C5 at a fully concrete successful run. -/
theorem C5_success_trace_witness :
    stagedState.selectedImage = some ⟨"cat.png", "image/png", 100⟩ ∧
    stagedState.isProcessing = false ∧
    aiResponseUrl aiRespOk = some "https://cdn/x/out.png" ∧
    (stagedState.isProcessing = false ∧
     progressTrace (processImage stagedState (some sessionU) 0
         (Except.ok "https://cdn/x/original-0.png")
         (Except.ok aiRespOk)).2 = [0, 20, 40, 60, 90, 100] ∧
     List.Chain' (fun a b => a ≤ b)
       (progressTrace (processImage stagedState (some sessionU) 0
         (Except.ok "https://cdn/x/original-0.png")
         (Except.ok aiRespOk)).2) ∧
     (progressTrace (processImage stagedState (some sessionU) 0
         (Except.ok "https://cdn/x/original-0.png")
         (Except.ok aiRespOk)).2).getLast? = some 100 ∧
     phaseTrace (processImage stagedState (some sessionU) 0
         (Except.ok "https://cdn/x/original-0.png")
         (Except.ok aiRespOk)).2
       = [ProcState.uploading, ProcState.transforming, ProcState.complete] ∧
     (processImage stagedState (some sessionU) 0
         (Except.ok "https://cdn/x/original-0.png")
         (Except.ok aiRespOk)).1.isProcessing = false ∧
     (processImage stagedState (some sessionU) 0
         (Except.ok "https://cdn/x/original-0.png")
         (Except.ok aiRespOk)).1.progress = 100) :=
  ⟨rfl, rfl, by decide,
   C5_success_trace stagedState ⟨"cat.png", "image/png", 100⟩ sessionU 0
     "https://cdn/x/original-0.png" "https://cdn/x/out.png" aiRespOk rfl rfl
     (by decide)⟩

/-- Claim C6: whenever processImage gets past its gates (file staged,
session present), it performs exactly one upload, whatever the collaborator
outcomes, and the storage key has the exact shape
watermark-removal/original-NOW.EXT where NOW is the decimal epoch
timestamp and EXT is the final dot-separated segment of the selected
file's original name (split('.').pop()). -/
theorem C6_upload_key_shape (s : ComponentState) (f : FileModel) (u : Session)
    (now : Nat) (storage : Except String String)
    (ai : Except String (Option AiData)) (hf : s.selectedImage = some f) :
    uploadTrace (processImage s (some u) now storage ai).2
      = ["watermark-removal/original-" ++ toString now ++ "." ++
          jsSplitPop f.name] := by
  cases storage with
  | error m => simp [processImage, processImageStaged, hf, uploadTrace, uploadKey]
  | ok url =>
    cases ai with
    | error m => simp [processImage, processImageStaged, hf, uploadTrace, uploadKey]
    | ok resp =>
      cases hr : aiResponseUrl resp <;>
        simp [processImage, processImageStaged, hf, hr, uploadTrace, uploadKey]

/-- Witness for C6 at a concrete run (with failing storage, which still
attempts the upload with the specified key). -/
theorem C6_upload_key_shape_witness :
    stagedState.selectedImage = some ⟨"cat.png", "image/png", 100⟩ ∧
    uploadTrace (processImage stagedState (some sessionU) 5
        (Except.error "boom") (Except.error "boom")).2
      = ["watermark-removal/original-5.png"] :=
  ⟨rfl,
   C6_upload_key_shape stagedState ⟨"cat.png", "image/png", 100⟩ sessionU 5
     (Except.error "boom") (Except.error "boom") rfl⟩

/-- Counterexample to the idempotency part of claim C7: the derived-filename
transform maps photo.jpg to photo_watermark_removed.png, but applying it to
its own output appends a second _watermark_removed segment instead of
returning the same name. -/
theorem C7_counterexample :
    deriveFilename "photo.jpg" = "photo_watermark_removed.png" ∧
    deriveFilename (deriveFilename "photo.jpg") ≠ deriveFilename "photo.jpg" := by
  decide

/-- Claim C7 (amended): the derived download filename replaces exactly the
final extension (the last dot plus a nonempty run of characters containing
no dot and no slash) with _watermark_removed.png, so photo.jpg maps to
photo_watermark_removed.png and archive.tar.png maps to
archive.tar_watermark_removed.png; the transform is NOT idempotent —
applied to its own output it replaces the new .png extension again. -/
theorem C7_amended_replace_ext (base ext : String) (hne : ext.data ≠ [])
    (hok : ∀ c ∈ ext.data, (c != '.' && c != '/') = true) :
    deriveFilename (base ++ "." ++ ext) = base ++ "_watermark_removed.png" := by
  have hall : ∀ c ∈ ext.data.reverse, (c != '.' && c != '/') = true :=
    fun c hc => hok c (List.mem_reverse.mp hc)
  have hsplit : extSuffixSplit (ext.data.reverse ++ '.' :: base.data.reverse)
      = some base.data.reverse := by
    unfold extSuffixSplit
    rw [takeWhile_all_append base.data.reverse hall (by decide)]
    rw [List.drop_left]
    simp [List.reverse_eq_nil_iff, hne]
  simp [deriveFilename, jsReplaceExt, hsplit, stringMkData]

/-- Witness for the amended C7 at base photo and extension jpg. -/
theorem C7_amended_replace_ext_witness :
    ("jpg" : String).data ≠ [] ∧
    (∀ c ∈ ("jpg" : String).data, (c != '.' && c != '/') = true) ∧
    deriveFilename ("photo" ++ "." ++ "jpg") = "photo" ++ "_watermark_removed.png" :=
  ⟨by decide, by decide,
   C7_amended_replace_ext "photo" "jpg" (by decide) (by decide)⟩

/-- Claim C8: when the AI response has an invalid shape (missing body,
missing data field, empty list, or first entry without a usable url), a run
that started with no stored result creates no processed result, ends failed
(isProcessing false, processedImage still none, phases ending at Failed),
and emits exactly one failure (destructive) toast. -/
theorem C8_invalid_response (s : ComponentState) (f : FileModel) (u : Session)
    (now : Nat) (publicUrl : String) (resp : Option AiData)
    (hf : s.selectedImage = some f) (hclean : s.processedImage = none)
    (hai : aiResponseUrl resp = none) :
    (processImage s (some u) now (Except.ok publicUrl)
        (Except.ok resp)).1.processedImage = none ∧
    (processImage s (some u) now (Except.ok publicUrl)
        (Except.ok resp)).1.isProcessing = false ∧
    failureToasts (processImage s (some u) now (Except.ok publicUrl)
        (Except.ok resp)).2 = [processingFailedToast invalidResponseMsg] ∧
    phaseTrace (processImage s (some u) now (Except.ok publicUrl)
        (Except.ok resp)).2
      = [ProcState.uploading, ProcState.transforming, ProcState.failed] := by
  refine ⟨?_, ?_, ?_, ?_⟩ <;>
    simp [processImage, processImageStaged, hf, hclean, hai, failureToasts,
          phaseTrace, phaseOf, uploadingToast, aiProcessingToast,
          processingFailedToast]

/-- Witness for C8 at a concrete response with an empty data list. -/
theorem C8_invalid_response_witness :
    stagedState.selectedImage = some ⟨"cat.png", "image/png", 100⟩ ∧
    stagedState.processedImage = none ∧
    aiResponseUrl (some ⟨some []⟩) = none ∧
    ((processImage stagedState (some sessionU) 0
        (Except.ok "https://cdn/x/original-0.png")
        (Except.ok (some ⟨some []⟩))).1.processedImage = none ∧
     (processImage stagedState (some sessionU) 0
        (Except.ok "https://cdn/x/original-0.png")
        (Except.ok (some ⟨some []⟩))).1.isProcessing = false ∧
     failureToasts (processImage stagedState (some sessionU) 0
        (Except.ok "https://cdn/x/original-0.png")
        (Except.ok (some ⟨some []⟩))).2
       = [processingFailedToast invalidResponseMsg] ∧
     phaseTrace (processImage stagedState (some sessionU) 0
        (Except.ok "https://cdn/x/original-0.png")
        (Except.ok (some ⟨some []⟩))).2
       = [ProcState.uploading, ProcState.transforming, ProcState.failed]) :=
  ⟨rfl, rfl, rfl,
   C8_invalid_response stagedState ⟨"cat.png", "image/png", 100⟩ sessionU 0
     "https://cdn/x/original-0.png" (some ⟨some []⟩) rfl rfl rfl⟩

/-- Claim C9: when the download fetch fails while a processed result is
stored, downloadProcessedImage emits exactly one download-failure toast and
leaves the component state (the stored result, the Complete state) and the
object-URL environment untouched, so the download can be retried without
reprocessing. -/
theorem C9_download_failure (s : ComponentState) (env : UrlEnv)
    (pi : ProcessedImage) (e : String) (hp : s.processedImage = some pi) :
    downloadProcessedImage s env (Except.error e)
      = (s, env, [Event.toast downloadFailedToast]) := by
  simp [downloadProcessedImage, hp]

/-- Witness for C9 at a concrete completed state. -/
theorem C9_download_failure_witness :
    completeState.processedImage
      = some ⟨"https://cdn/x/original-0.png", "https://cdn/x/out.png",
              "cat_watermark_removed.png"⟩ ∧
    downloadProcessedImage completeState ⟨1, []⟩ (Except.error "network down")
      = (completeState, ⟨1, []⟩, [Event.toast downloadFailedToast]) :=
  ⟨rfl,
   C9_download_failure completeState ⟨1, []⟩
     ⟨"https://cdn/x/original-0.png", "https://cdn/x/out.png",
      "cat_watermark_removed.png"⟩ "network down" rfl⟩

/-- Claim C10: for an original filename containing no dot, the extension
regex does not match and the derived download filename is the original name
unchanged — no _watermark_removed.png suffix is appended. -/
theorem C10_no_dot_unchanged (name : String)
    (h : ('.' : Char) ∉ name.data) : deriveFilename name = name := by
  have hnone : extSuffixSplit name.data.reverse = none := by
    unfold extSuffixSplit
    split
    · rfl
    next c before heq =>
      have hc : c ∈ name.data.reverse :=
        List.drop_subset _ _ (heq ▸ List.mem_cons_self c before)
      have hcne : c ≠ '.' := by
        intro hceq
        exact h (List.mem_reverse.mp (hceq ▸ hc))
      simp [hcne]
  simp [deriveFilename, jsReplaceExt, hnone]

/-- Witness for C10 at the extensionless name README. -/
theorem C10_no_dot_unchanged_witness :
    ('.' : Char) ∉ ("README" : String).data ∧
    deriveFilename "README" = "README" :=
  ⟨by decide, C10_no_dot_unchanged "README" (by decide)⟩
